import Mathlib

/-!
Verification of the crudify-sdk token lifecycle and resilient request
execution engine.  The implementation file `src/crudify.ts` is not part of
the sources available here (only its tests, type re-exports and
documentation are), so the core is modelled from the natural-language
specification; every modelled definition carries a doc comment saying so.
Time is in epoch milliseconds unless a name says seconds; machine integers
of the original are plain JavaScript numbers used as counters and
timestamps, modelled as `Nat`.
-/

namespace Crudify

/-- Modelled from the spec: the decoded claim set of a JWT payload
(subject, expiry in epoch seconds, issued-at, token kind).  The base64
plus JSON decoding of the middle token segment is a collaborator concern;
it is abstracted as a decoder function `String → Option Claims` passed to
every definition that needs it. -/
structure Claims where
  sub : Option String
  exp : Option Nat
  iat : Option Nat
  kind : Option String
deriving DecidableEq

/-- Modelled from the spec: the singleton session of `crudify.ts` (fields
`token`, `refreshToken`, `tokenExpiresAt`, `refreshExpiresAt`); empty
string means absent, 0 means unknown/unset. -/
structure Session where
  token : String
  refreshToken : String
  tokenExpiresAt : Nat
  refreshExpiresAt : Nat
deriving DecidableEq

/-- Modelled from the spec: the fully cleared session produced by
`clear()` / `clearTokensAndRefreshState()`. -/
def emptySession : Session :=
  { token := "", refreshToken := "", tokenExpiresAt := 0, refreshExpiresAt := 0 }

/-- Token shape errors of the validator. -/
inductive TokenError where
  | INVALID_FORMAT
  | MISSING_CLAIMS
  | WRONG_KIND
deriving DecidableEq

/-- Splitting a character list on a separator, with the semantics of the
JavaScript `String.prototype.split` used by the token validator: the
result always has one more entry than the number of separators, so the
empty input yields one empty segment. -/
def splitOnChar (sep : Char) : List Char → List (List Char)
  | [] => [[]]
  | c :: cs =>
    match splitOnChar sep cs with
    | [] => [[]]
    | r :: rs => if c = sep then [] :: r :: rs else (c :: r) :: rs

/-- The dot-separated segments of a token string, as strings. -/
def tokenParts (tok : String) : List String :=
  (splitOnChar '.' tok.toList).map List.asString

/-- Modelled from the spec: the token validator of `crudify.ts`
(`validate(tokenString)`): the string must split into exactly three
non-empty segments, the middle segment must decode to a claim set with a
subject and an expiry, and a kind claim, when present, must equal the
expected kind. -/
def validate (D : String → Option Claims) (expectedKind : String)
    (tok : String) : Except TokenError Claims :=
  match tokenParts tok with
  | [h, p, sg] =>
    if h = "" ∨ p = "" ∨ sg = "" then Except.error TokenError.INVALID_FORMAT
    else
      match D p with
      | none => Except.error TokenError.INVALID_FORMAT
      | some c =>
        if c.sub.isSome = true ∧ c.exp.isSome = true then
          match c.kind with
          | some k =>
            if k = expectedKind then Except.ok c
            else Except.error TokenError.WRONG_KIND
          | none => Except.ok c
        else Except.error TokenError.MISSING_CLAIMS
  | _ => Except.error TokenError.INVALID_FORMAT

/-- Modelled from the spec: `isLogin()` / `isAuthenticated` of
`crudify.ts` — true iff the stored access token structurally validates as
an access token and its expiry claim (epoch seconds) has not passed. -/
def isLoginB (D : String → Option Claims) (nowSec : Nat) (tok : String) : Bool :=
  match validate D "access" tok with
  | Except.ok c =>
    match c.exp with
    | some e => decide (nowSec < e)
    | none => false
  | Except.error _ => false

/-- Modelled from the spec: `isAccessExpiring(high)` of the token store —
the 2-minute (120000 ms) lookahead tier used by the renewal coordinator
and the resilient executor; stale iff now + buffer reaches the stored
access expiry. -/
def accessStale (nowMs : Nat) (s : Session) : Bool :=
  decide (s.tokenExpiresAt ≤ nowMs + 120000)

/-- Modelled from the spec: a usable refresh token — present (non-empty)
and with `refreshExpiresAt` not yet passed. -/
def refreshUsable (nowMs : Nat) (s : Session) : Bool :=
  decide (¬ s.refreshToken = "" ∧ nowMs < s.refreshExpiresAt)

/-- Modelled from the spec: the snapshot returned by `getTokenData()`. -/
structure TokenData where
  accessToken : String
  refreshToken : String
  expiresAt : Nat
  refreshExpiresAt : Nat
  isValid : Bool
  isExpired : Bool
  isRefreshExpired : Bool
  willExpireSoon : Bool
deriving DecidableEq

/-- Modelled from the spec: `getTokenData()` of `crudify.ts`; `isValid`
is the same structural-plus-hard-expiry check as `isLogin()`
(`isAccessTokenValid()`), `isExpired` uses the high 2-minute tier and
`willExpireSoon` the normal 5-minute tier. -/
def getTokenData (D : String → Option Claims) (nowMs : Nat) (s : Session) :
    TokenData :=
  { accessToken := s.token
    refreshToken := s.refreshToken
    expiresAt := s.tokenExpiresAt
    refreshExpiresAt := s.refreshExpiresAt
    isValid := isLoginB D (nowMs / 1000) s.token
    isExpired := accessStale nowMs s
    isRefreshExpired := decide (s.refreshExpiresAt ≤ nowMs)
    willExpireSoon := decide (s.tokenExpiresAt ≤ nowMs + 300000) }

/-- Modelled from the spec: the argument of `setTokens` — the access token
plus optional refresh token and expiries (absent fields keep the stored
values). -/
structure TokenConfig where
  accessToken : String
  refreshToken : Option String
  expiresAt : Option Nat
  refreshExpiresAt : Option Nat

/-- Modelled from the spec: `setTokens` of `crudify.ts` — re-validates the
access token before storing; on validation failure it clears the whole
session instead of storing a partial one. -/
def setTokens (D : String → Option Claims) (cfg : TokenConfig) (s : Session) :
    Session :=
  match validate D "access" cfg.accessToken with
  | Except.ok _ =>
    { token := cfg.accessToken
      refreshToken := cfg.refreshToken.getD s.refreshToken
      tokenExpiresAt := cfg.expiresAt.getD s.tokenExpiresAt
      refreshExpiresAt := cfg.refreshExpiresAt.getD s.refreshExpiresAt }
  | Except.error _ => emptySession

/-- Modelled from the spec: the legacy `setToken` of `crudify.ts` — only a
non-empty string replaces the stored access token; an empty string or a
non-string argument (modelled as `none`) leaves the session untouched. -/
def setToken (arg : Option String) (s : Session) : Session :=
  match arg with
  | some t => if t = "" then s else { s with token := t }
  | none => s

/-- Modelled from the spec: the environment-to-endpoint map used by
`config(env)`; the recognized environments are dev, stg, api and prod
(api is production and prod resolves to the same endpoint); anything else
falls back to the production api endpoint. -/
def apiMetadataFor (env : String) : String :=
  if env = "dev" then "https://auth.dev.crudify.io"
  else if env = "stg" then "https://auth.stg.crudify.io"
  else "https://auth.api.crudify.io"

/-- Modelled from the spec: the token pair delivered by a successful
renewal dispatch. -/
structure TokenPair where
  token : String
  refreshToken : String
  expiresAt : Nat
  refreshExpiresAt : Nat
deriving DecidableEq

/-- Settlement of the single shared renewal network call: either the new
token pair or the remote failure. -/
inductive RenewOutcome where
  | success (p : TokenPair)
  | failure (m : String)
deriving DecidableEq

/-- Modelled from the spec: the state of the renewal coordinator — the
session, the optional handle of the in-flight shared renewal
(`refreshPromise`), a counter generating fresh handles, and the number of
renewal network dispatches issued so far (the last is a ghost counter that
the code does not keep but the single-flight property is about). -/
structure CoordState where
  sess : Session
  inFlightRenewal : Option Nat
  nextHandle : Nat
  dispatchCount : Nat
deriving DecidableEq

/-- What one `renew()` / `refreshAccessToken()` caller is handed by its
atomic entry step: an immediate skip success, an immediate
no-refresh-token failure, or attachment to the shared pending renewal
with the given handle. -/
inductive RenewEntry where
  | skipped
  | failedNoRefresh
  | attached (h : Nat)
deriving DecidableEq

/-- The outcome a caller of `renew()` finally resolves with. -/
inductive RenewResult where
  | stillValid
  | noRefreshToken
  | renewed (p : TokenPair)
  | renewFailed (m : String)
deriving DecidableEq

/-- Modelled from the spec: the atomic, non-suspending entry step of
`renew()` — the cooperative scheduler never preempts inside it.  In order:
if the access token is not stale per the high tier and the refresh is not
forced, return success without touching anything (renewal must never be
attempted then); if no usable refresh token, clear the session and fail
without dispatching and without entering InFlight; if a renewal is
already in flight, attach to its shared handle; otherwise dispatch one
renewal call and store the fresh handle in `inFlightRenewal`. -/
def renewEnter (nowMs : Nat) (force : Bool) (st : CoordState) :
    RenewEntry × CoordState :=
  if force = false ∧ accessStale nowMs st.sess = false then
    (RenewEntry.skipped, st)
  else if refreshUsable nowMs st.sess = false then
    (RenewEntry.failedNoRefresh, { st with sess := emptySession })
  else
    match st.inFlightRenewal with
    | some h => (RenewEntry.attached h, st)
    | none =>
      (RenewEntry.attached st.nextHandle,
       { st with inFlightRenewal := some st.nextHandle
                 nextHandle := st.nextHandle + 1
                 dispatchCount := st.dispatchCount + 1 })

/-- N concurrent `renew()` callers entering one after the other under the
cooperative scheduler (each entry step is atomic); returns what each
caller was handed and the final coordinator state. -/
def processN (nowMs : Nat) (force : Bool) : Nat → CoordState →
    List RenewEntry × CoordState
  | 0, st => ([], st)
  | n + 1, st =>
    let r := renewEnter nowMs force st
    let rest := processN nowMs force n r.2
    (r.1 :: rest.1, rest.2)

/-- Modelled from the spec: settlement of the shared renewal — on success
the new pair is assigned to the session atomically, on failure the whole
session is cleared; either way `inFlightRenewal` is cleared before any
waiter observes the result. -/
def settle (o : RenewOutcome) (st : CoordState) : CoordState :=
  match o with
  | RenewOutcome.success p =>
    { st with
      sess :=
        { token := p.token
          refreshToken := p.refreshToken
          tokenExpiresAt := p.expiresAt
          refreshExpiresAt := p.refreshExpiresAt }
      inFlightRenewal := none }
  | RenewOutcome.failure _ =>
    { st with sess := emptySession, inFlightRenewal := none }

/-- The result the settled shared renewal hands to every attached
waiter. -/
def outcomeResult : RenewOutcome → RenewResult
  | RenewOutcome.success p => RenewResult.renewed p
  | RenewOutcome.failure m => RenewResult.renewFailed m

/-- Modelled from the spec: how a caller resolves once the shared renewal
(if it attached to one) settles with outcome `o` — skipped callers
resolve with success, no-refresh callers with the terminal
NO_REFRESH_TOKEN_AVAILABLE failure, and every attached caller with the
outcome of the single shared dispatch. -/
def resolveEntry (o : RenewOutcome) : RenewEntry → RenewResult
  | RenewEntry.skipped => RenewResult.stillValid
  | RenewEntry.failedNoRefresh => RenewResult.noRefreshToken
  | RenewEntry.attached _ => outcomeResult o

/-- The normalized error classes of the response normalizer
collaborator. -/
inductive ErrorClass where
  | SUCCESS
  | AUTHORIZATION_FAILURE
  | VALIDATION_FAILURE
  | NOT_FOUND
  | SERVER_FAILURE
deriving DecidableEq

/-- A normalized transport response: its error class and an abstract
payload. -/
structure Normalized where
  errorClass : ErrorClass
  payload : String
deriving DecidableEq

/-- What `execute()` returns to its caller. -/
inductive ExecResult where
  | unauthorized
  | renewalFailed (m : String)
  | completed (r : Normalized)
deriving DecidableEq

/-- One AUTHORIZATION_FAILURE recovery cycle of the resilient executor:
dispatch once; if the normalized response is an authorization failure,
invoke renewal once — on renewal failure propagate it, on success
redispatch exactly once more and return that outcome regardless of its
class.  Returns the result, the number of dispatches and the number of
renewal invocations in this phase. -/
def dispatchPhase (responses : Nat → Normalized) (ro : RenewOutcome) :
    ExecResult × Nat × Nat :=
  let r1 := responses 0
  if r1.errorClass = ErrorClass.AUTHORIZATION_FAILURE then
    match ro with
    | RenewOutcome.failure m => (ExecResult.renewalFailed m, 1, 1)
    | RenewOutcome.success _ => (ExecResult.completed (responses 1), 2, 1)
  else (ExecResult.completed r1, 1, 0)

/-- Modelled from the spec: `execute()` of the resilient executor — fail
fast when an authenticated operation finds no access token at all;
proactively renew when the token is expiring per the high tier and
propagate a renewal failure without dispatching; then dispatch with one
authorization-failure renew-and-retry cycle, never dispatching a third
time.  The mocked transport is the response sequence `responses` and the
renewal coordinator settlement is `ro`; the result carries the dispatch
and renewal counts. -/
def execute (nowMs : Nat) (s : Session) (requiresAuth : Bool)
    (responses : Nat → Normalized) (ro : RenewOutcome) :
    ExecResult × Nat × Nat :=
  if requiresAuth = true ∧ s.token = "" then (ExecResult.unauthorized, 0, 0)
  else if accessStale nowMs s = true then
    match ro with
    | RenewOutcome.failure m => (ExecResult.renewalFailed m, 0, 1)
    | RenewOutcome.success _ =>
      let r := dispatchPhase responses ro
      (r.1, r.2.1, r.2.2 + 1)
  else dispatchPhase responses ro

/-! Concrete inputs used by the witnesses below.  `demoDecode` is a sample
payload decoder standing in for base64-plus-JSON decoding: `p1` decodes to
an unexpired access claim set, `pexp` to an expired one, `pref` to a
refresh-kind one, and everything else fails to decode. -/

/-- A sample payload decoder for witnesses. -/
def demoDecode : String → Option Claims := fun s =>
  if s = "p1" then
    some { sub := some "user123", exp := some 2000000000, iat := none,
           kind := some "access" }
  else if s = "pexp" then
    some { sub := some "user123", exp := some 5, iat := none,
           kind := some "access" }
  else if s = "pref" then
    some { sub := some "user123", exp := some 2000000000, iat := none,
           kind := some "refresh" }
  else none

/-- A sample populated session for witnesses. -/
def demoSession : Session :=
  { token := "h.p1.s", refreshToken := "refresh-token",
    tokenExpiresAt := 1000000000000, refreshExpiresAt := 1000000000000 }

/-- A coordinator state whose access token is fresh while the refresh
token is absent. -/
def freshNoRefreshState : CoordState :=
  { sess := { token := "h.p1.s", refreshToken := "",
              tokenExpiresAt := 1000000000000, refreshExpiresAt := 0 },
    inFlightRenewal := none, nextHandle := 0, dispatchCount := 0 }

/-- A coordinator state with a stale access token and a usable refresh
token, idle (no renewal in flight). -/
def staleIdleState : CoordState :=
  { sess := { token := "h.pexp.s", refreshToken := "refresh-token",
              tokenExpiresAt := 0, refreshExpiresAt := 604800000 },
    inFlightRenewal := none, nextHandle := 0, dispatchCount := 0 }

/-- A coordinator state with a stale access token and no usable refresh
token. -/
def staleNoRefreshState : CoordState :=
  { sess := { token := "h.pexp.s", refreshToken := "",
              tokenExpiresAt := 0, refreshExpiresAt := 0 },
    inFlightRenewal := none, nextHandle := 0, dispatchCount := 0 }

/-- A sample renewed token pair for witnesses. -/
def demoPair : TokenPair :=
  { token := "h.p1.s", refreshToken := "new-refresh-token",
    expiresAt := 2000000000000, refreshExpiresAt := 3000000000000 }

/-- A mocked transport whose first response is an authorization failure
and whose later responses succeed. -/
def demoResponses : Nat → Normalized := fun n =>
  if n = 0 then { errorClass := ErrorClass.AUTHORIZATION_FAILURE, payload := "e1" }
  else { errorClass := ErrorClass.SUCCESS, payload := "ok" }

/-- C5: a `setTokens` call whose access token fails structural validation
stores nothing — the whole session is cleared (access and refresh tokens
empty, both expiries unset) instead of a partial or inconsistent state. -/
theorem setTokens_invalid_clears (D : String → Option Claims)
    (cfg : TokenConfig) (s : Session) (err : TokenError)
    (hv : validate D "access" cfg.accessToken = Except.error err) :
    setTokens D cfg s =
      { token := "", refreshToken := "", tokenExpiresAt := 0,
        refreshExpiresAt := 0 } := by
  unfold setTokens
  rw [hv]
  rfl

/-- Witness for C5 at a concrete invalid token and populated session. -/
theorem setTokens_invalid_clears_witness :
    validate demoDecode "access" "invalid-token" =
      Except.error TokenError.INVALID_FORMAT ∧
    setTokens demoDecode
        { accessToken := "invalid-token", refreshToken := some "refresh-token",
          expiresAt := none, refreshExpiresAt := none } demoSession =
      { token := "", refreshToken := "", tokenExpiresAt := 0,
        refreshExpiresAt := 0 } :=
  ⟨rfl,
   setTokens_invalid_clears demoDecode
     { accessToken := "invalid-token", refreshToken := some "refresh-token",
       expiresAt := none, refreshExpiresAt := none }
     demoSession TokenError.INVALID_FORMAT rfl⟩

/-- C6: when the stored access token is not stale per the high urgency
tier (now + 2 minutes is still before the stored expiry) and the refresh
is not forced, `renew()` touches nothing — no dispatch, no state change —
and the caller resolves with success. -/
theorem renew_skips_fresh_token (nowMs : Nat) (st : CoordState)
    (hFresh : nowMs + 120000 < st.sess.tokenExpiresAt) :
    renewEnter nowMs false st = (RenewEntry.skipped, st) ∧
    ∀ o : RenewOutcome,
      resolveEntry o RenewEntry.skipped = RenewResult.stillValid := by
  have hs : accessStale nowMs st.sess = false := by
    simp [accessStale]; omega
  refine ⟨?_, fun o => rfl⟩
  unfold renewEnter
  simp [hs]

/-- Witness for C6 at a concrete fresh session. -/
theorem renew_skips_fresh_token_witness :
    renewEnter 0 false freshNoRefreshState =
      (RenewEntry.skipped, freshNoRefreshState) ∧
    ∀ o : RenewOutcome,
      resolveEntry o RenewEntry.skipped = RenewResult.stillValid :=
  renew_skips_fresh_token 0 freshNoRefreshState (by decide)

/-- C4 counterexample: in a state whose refresh token is absent but whose
access token is still fresh per the high tier, `renew()` does not fail
with NO_REFRESH_TOKEN_AVAILABLE and does not clear the session — it
returns the skip success and leaves the state untouched, contradicting
the claim as stated. -/
theorem renew_no_refresh_counterexample :
    freshNoRefreshState.sess.refreshToken = "" ∧
    renewEnter 0 false freshNoRefreshState =
      (RenewEntry.skipped, freshNoRefreshState) ∧
    (renewEnter 0 false freshNoRefreshState).1 ≠ RenewEntry.failedNoRefresh ∧
    (renewEnter 0 false freshNoRefreshState).2.sess.token = "h.p1.s" := by
  decide

/-- C4 amended: whenever a renewal would actually be attempted (the
access token is stale per the high tier, or the refresh is forced) and
the refresh token is absent or past its expiry, `renew()` fails
immediately with NO_REFRESH_TOKEN_AVAILABLE, makes no dispatch, does not
enter InFlight, and leaves the session cleared. -/
theorem renew_no_refresh_clears (nowMs : Nat) (force : Bool)
    (st : CoordState)
    (hNeed : force = true ∨ accessStale nowMs st.sess = true)
    (hNoRef : refreshUsable nowMs st.sess = false) :
    renewEnter nowMs force st =
      (RenewEntry.failedNoRefresh, { st with sess := emptySession }) ∧
    ∀ o : RenewOutcome,
      resolveEntry o RenewEntry.failedNoRefresh = RenewResult.noRefreshToken := by
  refine ⟨?_, fun o => rfl⟩
  unfold renewEnter
  rcases hNeed with hf | hs
  · simp [hf, hNoRef]
  · simp [hs, hNoRef]

/-- Witness for the amended C4 at a concrete stale session with an absent
refresh token. -/
theorem renew_no_refresh_clears_witness :
    renewEnter 0 false staleNoRefreshState =
      (RenewEntry.failedNoRefresh, { staleNoRefreshState with sess := emptySession }) ∧
    ∀ o : RenewOutcome,
      resolveEntry o RenewEntry.failedNoRefresh = RenewResult.noRefreshToken :=
  renew_no_refresh_clears 0 false staleNoRefreshState (Or.inr (by decide))
    (by decide)

/-- C3: a renewal that settles as a failure clears the whole session
(access token, refresh token, both expiries) and the in-flight handle
before any waiter observes the result, every attached waiter resolves
with the same failure, and `isLogin` is false on the resulting session. -/
theorem renewal_failure_clears_session (m : String) (st : CoordState)
    (D : String → Option Claims) (nowSec : Nat) :
    (settle (RenewOutcome.failure m) st).sess = emptySession ∧
    (settle (RenewOutcome.failure m) st).inFlightRenewal = none ∧
    isLoginB D nowSec (settle (RenewOutcome.failure m) st).sess.token = false ∧
    ∀ h : Nat,
      resolveEntry (RenewOutcome.failure m) (RenewEntry.attached h) =
        RenewResult.renewFailed m :=
  ⟨rfl, rfl, rfl, fun _ => rfl⟩

/-- C9: any environment string other than the recognized dev, stg, api
and prod resolves to the production api auth endpoint instead of being
rejected. -/
theorem config_invalid_env_fallback (env : String)
    (h : env ≠ "dev" ∧ env ≠ "stg" ∧ env ≠ "api" ∧ env ≠ "prod") :
    apiMetadataFor env = "https://auth.api.crudify.io" := by
  unfold apiMetadataFor
  rw [if_neg h.1, if_neg h.2.1]

/-- Witness for C9 at the concrete unrecognized environment used by the
configuration test. -/
theorem config_invalid_env_fallback_witness :
    ("invalid" ≠ "dev" ∧ "invalid" ≠ "stg" ∧ "invalid" ≠ "api" ∧
      "invalid" ≠ "prod") ∧
    apiMetadataFor "invalid" = "https://auth.api.crudify.io" :=
  ⟨by decide, config_invalid_env_fallback "invalid" (by decide)⟩

/-- C10: the legacy `setToken` leaves the session untouched when given an
empty string or a non-string argument (modelled as `none`), and a
non-empty string replaces exactly the stored access token. -/
theorem setToken_legacy_guard (s : Session) :
    setToken none s = s ∧
    setToken (some "") s = s ∧
    ∀ t : String, t ≠ "" → setToken (some t) s = { s with token := t } := by
  refine ⟨rfl, ?_, ?_⟩
  · unfold setToken
    simp
  · intro t ht
    unfold setToken
    simp [ht]

/-- Witness for C10 at a concrete non-empty token and populated
session. -/
theorem setToken_legacy_guard_witness :
    setToken (some "test-token") demoSession =
      { demoSession with token := "test-token" } :=
  (setToken_legacy_guard demoSession).2.2 "test-token" (by decide)

/-- C8 counterexample: a structurally valid access token whose expiry
claim has already passed round-trips through `setTokens` into
`getTokenData` with `isValid = false`, because `isValid` is the same
structural-plus-hard-expiry check as `isLogin`; the claim as stated
(structural validity alone forces `isValid = true`) is therefore false at
this input. -/
theorem roundtrip_expired_counterexample :
    (validate demoDecode "access" "h.pexp.s").isOk = true ∧
    (getTokenData demoDecode 1000000000000
        (setTokens demoDecode
          { accessToken := "h.pexp.s", refreshToken := some "refresh-token",
            expiresAt := some 5000, refreshExpiresAt := some 9000 }
          emptySession)).accessToken = "h.pexp.s" ∧
    (getTokenData demoDecode 1000000000000
        (setTokens demoDecode
          { accessToken := "h.pexp.s", refreshToken := some "refresh-token",
            expiresAt := some 5000, refreshExpiresAt := some 9000 }
          emptySession)).isValid = false := by
  decide

/-- C8 amended: for every structurally valid access token T whose expiry
claim has not yet passed, `getTokenData` immediately after
`setTokens` with T, refresh token R and expiries E and F returns exactly
those four stored values and `isValid = true`. -/
theorem setTokens_getTokenData_roundtrip (D : String → Option Claims)
    (nowMs : Nat) (T R : String) (E F : Nat) (s : Session) (c : Claims)
    (e : Nat)
    (hv : validate D "access" T = Except.ok c)
    (he : c.exp = some e) (hn : nowMs / 1000 < e) :
    (getTokenData D nowMs
        (setTokens D
          { accessToken := T, refreshToken := some R, expiresAt := some E,
            refreshExpiresAt := some F } s)).accessToken = T ∧
    (getTokenData D nowMs
        (setTokens D
          { accessToken := T, refreshToken := some R, expiresAt := some E,
            refreshExpiresAt := some F } s)).refreshToken = R ∧
    (getTokenData D nowMs
        (setTokens D
          { accessToken := T, refreshToken := some R, expiresAt := some E,
            refreshExpiresAt := some F } s)).expiresAt = E ∧
    (getTokenData D nowMs
        (setTokens D
          { accessToken := T, refreshToken := some R, expiresAt := some E,
            refreshExpiresAt := some F } s)).refreshExpiresAt = F ∧
    (getTokenData D nowMs
        (setTokens D
          { accessToken := T, refreshToken := some R, expiresAt := some E,
            refreshExpiresAt := some F } s)).isValid = true := by
  unfold setTokens
  rw [hv]
  unfold getTokenData isLoginB
  rw [hv]
  simp [he, hn]

/-- Witness for the amended C8 at a concrete valid unexpired token. -/
theorem setTokens_getTokenData_roundtrip_witness :
    (getTokenData demoDecode 1000000
        (setTokens demoDecode
          { accessToken := "h.p1.s", refreshToken := some "refresh-token",
            expiresAt := some 5000, refreshExpiresAt := some 9000 }
          emptySession)).accessToken = "h.p1.s" ∧
    (getTokenData demoDecode 1000000
        (setTokens demoDecode
          { accessToken := "h.p1.s", refreshToken := some "refresh-token",
            expiresAt := some 5000, refreshExpiresAt := some 9000 }
          emptySession)).refreshToken = "refresh-token" ∧
    (getTokenData demoDecode 1000000
        (setTokens demoDecode
          { accessToken := "h.p1.s", refreshToken := some "refresh-token",
            expiresAt := some 5000, refreshExpiresAt := some 9000 }
          emptySession)).expiresAt = 5000 ∧
    (getTokenData demoDecode 1000000
        (setTokens demoDecode
          { accessToken := "h.p1.s", refreshToken := some "refresh-token",
            expiresAt := some 5000, refreshExpiresAt := some 9000 }
          emptySession)).refreshExpiresAt = 9000 ∧
    (getTokenData demoDecode 1000000
        (setTokens demoDecode
          { accessToken := "h.p1.s", refreshToken := some "refresh-token",
            expiresAt := some 5000, refreshExpiresAt := some 9000 }
          emptySession)).isValid = true :=
  setTokens_getTokenData_roundtrip demoDecode 1000000 "h.p1.s"
    "refresh-token" 5000 9000 emptySession
    { sub := some "user123", exp := some 2000000000, iat := none,
      kind := some "access" }
    2000000000 rfl rfl (by decide)

/-- C2: when the first dispatch of an operation normalizes to an
authorization failure (and the token was fresh, so no proactive renewal
happened), the executor invokes renewal exactly once and either
redispatches exactly once more — returning that second outcome whatever
its class, so a second consecutive authorization failure is surfaced with
no third dispatch — or, when renewal itself failed, propagates the
renewal error with no redispatch. -/
theorem execute_auth_retry_once (nowMs : Nat) (s : Session)
    (requiresAuth : Bool) (responses : Nat → Normalized) (ro : RenewOutcome)
    (hTok : s.token ≠ "")
    (hFresh : accessStale nowMs s = false)
    (hAuth : (responses 0).errorClass = ErrorClass.AUTHORIZATION_FAILURE) :
    (∀ p : TokenPair, ro = RenewOutcome.success p →
      execute nowMs s requiresAuth responses ro =
        (ExecResult.completed (responses 1), 2, 1)) ∧
    (∀ m : String, ro = RenewOutcome.failure m →
      execute nowMs s requiresAuth responses ro =
        (ExecResult.renewalFailed m, 1, 1)) := by
  unfold execute dispatchPhase
  constructor
  · rintro p rfl
    simp [hTok, hFresh, hAuth]
  · rintro m rfl
    simp [hTok, hFresh, hAuth]

/-- Witness for C2: the mocked sequence whose first response is an
authorization failure and whose retry succeeds, with a fresh token and a
successful renewal. -/
theorem execute_auth_retry_once_witness :
    execute 0 demoSession true demoResponses (RenewOutcome.success demoPair) =
      (ExecResult.completed (demoResponses 1), 2, 1) :=
  (execute_auth_retry_once 0 demoSession true demoResponses
      (RenewOutcome.success demoPair) (by decide) (by decide) (by decide)).1
    demoPair rfl



/-- C7: `isLogin` is true exactly when the stored token splits into
three non-empty dot-separated segments, the middle segment decodes to a
claim set carrying a subject and an expiry, any kind claim equals
access, and the expiry claim has not passed; in particular it is false
for an empty, malformed, expired or refresh-kind token. -/
theorem isLogin_characterization (D : String → Option Claims)
    (nowSec : Nat) (tok : String) :
    isLoginB D nowSec tok = true ↔
      ∃ hd p sg, tokenParts tok = [hd, p, sg] ∧
        hd ≠ "" ∧ p ≠ "" ∧ sg ≠ "" ∧
        ∃ c, D p = some c ∧ c.sub.isSome = true ∧
          (∃ e, c.exp = some e ∧ nowSec < e) ∧
          ∀ k, c.kind = some k → k = "access" := by
  unfold isLoginB validate
  rcases htp : tokenParts tok with _ | ⟨hd, _ | ⟨p, _ | ⟨sg, _ | ⟨x, rest⟩⟩⟩⟩ <;>
    simp only [htp]
  · simp
  · simp
  · simp
  · by_cases hemp : hd = "" ∨ p = "" ∨ sg = ""
    · simp only [if_pos hemp]
      constructor
      · intro h; exact absurd h (by simp)
      · rintro ⟨hd2, p2, sg2, heq, hne1, hne2, hne3, _⟩
        obtain ⟨rfl, rfl, rfl⟩ : hd = hd2 ∧ p = p2 ∧ sg = sg2 := by
          simpa using heq
        rcases hemp with h | h | h
        · exact absurd h hne1
        · exact absurd h hne2
        · exact absurd h hne3
    · push_neg at hemp
      obtain ⟨h1, h2, h3⟩ := hemp
      simp only [if_neg (by tauto : ¬ (hd = "" ∨ p = "" ∨ sg = ""))]
      cases hD : D p with
      | none => simp [h1, h2, h3, hD]
      | some c =>
        cases hsub : c.sub with
        | none => simp [h1, h2, h3, hD, hsub]
        | some u =>
          cases hexp : c.exp with
          | none => simp [h1, h2, h3, hD, hsub, hexp]
          | some e =>
            cases hkind : c.kind with
            | none =>
              simp only [hD, hsub, hexp, hkind, Option.isSome_some, and_self,
                if_true, decide_eq_true_eq]
              constructor
              · intro hlt
                refine ⟨hd, p, sg, rfl, h1, h2, h3, c, hD, ?_,
                  ⟨e, hexp, hlt⟩, ?_⟩
                · simp [hsub]
                · intro k hk
                  rw [hkind] at hk
                  cases hk
              · rintro ⟨hd2, p2, sg2, heq, -, -, -, c2, hD2, -,
                  ⟨e2, hexp2, hlt2⟩, -⟩
                obtain ⟨rfl, rfl, rfl⟩ : hd = hd2 ∧ p = p2 ∧ sg = sg2 := by
                  simpa using heq
                rw [hD] at hD2
                obtain rfl : c = c2 := by injection hD2
                rw [hexp] at hexp2
                obtain rfl : e = e2 := by injection hexp2
                exact hlt2
            | some k =>
              by_cases hk : k = "access"
              · subst hk
                simp only [hD, hsub, hexp, hkind, Option.isSome_some, and_self,
                  if_true, if_pos rfl, decide_eq_true_eq]
                constructor
                · intro hlt
                  refine ⟨hd, p, sg, rfl, h1, h2, h3, c, hD, ?_,
                    ⟨e, hexp, hlt⟩, ?_⟩
                  · simp [hsub]
                  · intro k2 hk2
                    rw [hkind] at hk2
                    injection hk2 with h4
                    exact h4.symm
                · rintro ⟨hd2, p2, sg2, heq, -, -, -, c2, hD2, -,
                    ⟨e2, hexp2, hlt2⟩, -⟩
                  obtain ⟨rfl, rfl, rfl⟩ : hd = hd2 ∧ p = p2 ∧ sg = sg2 := by
                    simpa using heq
                  rw [hD] at hD2
                  obtain rfl : c = c2 := by injection hD2
                  rw [hexp] at hexp2
                  obtain rfl : e = e2 := by injection hexp2
                  exact hlt2
              · simp only [hD, hsub, hexp, hkind, Option.isSome_some, and_self,
                  if_true, if_neg hk]
                constructor
                · intro h; exact absurd h (by simp)
                · rintro ⟨hd2, p2, sg2, heq, -, -, -, c2, hD2, -, -, hkd⟩
                  obtain ⟨rfl, rfl, rfl⟩ : hd = hd2 ∧ p = p2 ∧ sg = sg2 := by
                    simpa using heq
                  rw [hD] at hD2
                  obtain rfl : c = c2 := by injection hD2
                  exact absurd (hkd k hkind) hk
  · simp

/-- Any caller entering while a renewal is in flight (and while renewal is
still needed and possible) attaches to the stored shared handle and
changes nothing. -/
theorem renewEnter_attaches (nowMs : Nat) (force : Bool) (st : CoordState)
    (h : Nat) (hIF : st.inFlightRenewal = some h)
    (hNeed : force = true ∨ accessStale nowMs st.sess = true)
    (hRef : refreshUsable nowMs st.sess = true) :
    renewEnter nowMs force st = (RenewEntry.attached h, st) := by
  unfold renewEnter
  rcases hNeed with hf | hs
  · simp [hf, hRef, hIF]
  · simp [hs, hRef, hIF]

/-- While a renewal is in flight every further concurrent caller attaches
to the same handle and the coordinator state never changes. -/
theorem processN_attaches (nowMs : Nat) (force : Bool) (n : Nat)
    (st : CoordState) (h : Nat) (hIF : st.inFlightRenewal = some h)
    (hNeed : force = true ∨ accessStale nowMs st.sess = true)
    (hRef : refreshUsable nowMs st.sess = true) :
    processN nowMs force n st =
      (List.replicate n (RenewEntry.attached h), st) := by
  induction n with
  | zero => rfl
  | succ n ih =>
    unfold processN
    rw [renewEnter_attaches nowMs force st h hIF hNeed hRef]
    simp only [ih, List.replicate_succ]

/-- C1: from an idle coordinator in a state where renewal is needed
(stale access token or forced refresh) and possible (usable refresh
token), any number n of concurrent renew callers produce exactly one
renewal dispatch, every caller attaches to the one shared in-flight
handle (no second renewal ever starts while it is in flight), and at
settlement every caller resolves with the identical outcome of that
single dispatch. -/
theorem renew_single_flight (nowMs : Nat) (force : Bool) (n : Nat)
    (st : CoordState)
    (hIdle : st.inFlightRenewal = none)
    (hNeed : force = true ∨ accessStale nowMs st.sess = true)
    (hRef : refreshUsable nowMs st.sess = true)
    (hN : 1 ≤ n) :
    (processN nowMs force n st).2.dispatchCount = st.dispatchCount + 1 ∧
    (processN nowMs force n st).2.inFlightRenewal = some st.nextHandle ∧
    (∀ e ∈ (processN nowMs force n st).1,
      e = RenewEntry.attached st.nextHandle) ∧
    ∀ o : RenewOutcome, ∀ e ∈ (processN nowMs force n st).1,
      resolveEntry o e = outcomeResult o := by
  obtain ⟨m, rfl⟩ : ∃ m, n = m + 1 := ⟨n - 1, by omega⟩
  have h1 : renewEnter nowMs force st =
      (RenewEntry.attached st.nextHandle,
       { st with inFlightRenewal := some st.nextHandle
                 nextHandle := st.nextHandle + 1
                 dispatchCount := st.dispatchCount + 1 }) := by
    unfold renewEnter
    rcases hNeed with hf | hs
    · simp [hf, hRef, hIdle]
    · simp [hs, hRef, hIdle]
  have h3 : processN nowMs force m
      { st with inFlightRenewal := some st.nextHandle
                nextHandle := st.nextHandle + 1
                dispatchCount := st.dispatchCount + 1 } =
      (List.replicate m (RenewEntry.attached st.nextHandle),
       { st with inFlightRenewal := some st.nextHandle
                 nextHandle := st.nextHandle + 1
                 dispatchCount := st.dispatchCount + 1 }) :=
    processN_attaches nowMs force m
      { st with inFlightRenewal := some st.nextHandle
                nextHandle := st.nextHandle + 1
                dispatchCount := st.dispatchCount + 1 }
      st.nextHandle rfl hNeed hRef
  have h2 : processN nowMs force (m + 1) st =
      (RenewEntry.attached st.nextHandle ::
        List.replicate m (RenewEntry.attached st.nextHandle),
       { st with inFlightRenewal := some st.nextHandle
                 nextHandle := st.nextHandle + 1
                 dispatchCount := st.dispatchCount + 1 }) := by
    simp only [processN, h1, h3]
  rw [h2]
  refine ⟨rfl, rfl, ?_, ?_⟩
  · intro e he
    rcases List.mem_cons.1 he with rfl | hmem
    · rfl
    · exact List.eq_of_mem_replicate hmem
  · intro o e he
    rcases List.mem_cons.1 he with rfl | hmem
    · rfl
    · rw [List.eq_of_mem_replicate hmem]
      rfl

/-- Witness for C1: three concurrent renew callers entering the concrete
stale idle state produce exactly one dispatch, all attached to the same
handle, all resolving identically at settlement. -/
theorem renew_single_flight_witness :
    (processN 0 false 3 staleIdleState).2.dispatchCount =
      staleIdleState.dispatchCount + 1 ∧
    (processN 0 false 3 staleIdleState).2.inFlightRenewal =
      some staleIdleState.nextHandle ∧
    (∀ e ∈ (processN 0 false 3 staleIdleState).1,
      e = RenewEntry.attached staleIdleState.nextHandle) ∧
    ∀ o : RenewOutcome, ∀ e ∈ (processN 0 false 3 staleIdleState).1,
      resolveEntry o e = outcomeResult o :=
  renew_single_flight 0 false 3 staleIdleState rfl (Or.inr (by decide))
    (by decide) (by decide)

end Crudify
